import Mathlib

/-!
Verification of the record lifecycle and request-validation layer of the
beaten-games web application (`src/main.go`), as a shallow embedding.

HTTP form bodies (`url.Values`, a `map[string][]string`) are modelled as
association lists; the Go `time.Time` values are modelled at day granularity
(the only granularity the handlers use); the persistence backend and the
remote search provider are modelled by their result values, passed in as
parameters.  Each handler becomes a pure function from its inputs to a
record of (a) the value it handed to the storage gateway, if any, and
(b) the HTTP response it wrote.  The full-add handler returns an `Option`
because it indexes `r.Form["beaten_on"][0]`, which panics in Go when the
key is absent; `none` models that panic.
-/

/-- A calendar date, standing in for the Go `time.Time` at the day
granularity used by the handlers (`time.Parse("2006-01-02", ...)` leaves
all smaller components at zero, and the zero `time.Time` is
0001-01-01). -/
structure GoTime where
  year : Nat
  month : Nat
  day : Nat
deriving DecidableEq, Repr

/-- The zero value of the Go `time.Time`: January 1, year 1. -/
def GoTime.zero : GoTime := ⟨1, 1, 1⟩

/-- the Go `sql.NullString`: a string together with a presence flag. -/
structure NullString where
  string : String
  valid : Bool
deriving DecidableEq, Repr

/-- `data.NullTime`: a time together with a presence flag. -/
structure NullTime where
  time : GoTime
  valid : Bool
deriving DecidableEq, Repr

/-- `data.Game`: the persisted entity (the storage-assigned id is not
set by the handlers and is omitted). -/
structure Game where
  name : String
  note : NullString
  beatenOn : NullTime
deriving DecidableEq, Repr

/-- A submitted form body after parsing: the Go `url.Values`
(`map[string][]string`) as an association list. -/
def Form : Type := List (String × List String)

/-- Go map indexing with presence flag: `vals, ok := form[key]`. -/
def Form.lookupKey : Form → String → Option (List String)
  | [], _ => none
  | (k, v) :: rest, key => if k = key then some v else Form.lookupKey rest key

/-- Go map indexing without the flag: `form[key]` yields the nil slice
when the key is absent. -/
def Form.getList (f : Form) (key : String) : List String :=
  (f.lookupKey key).getD []

/-- `url.Values.Get`: the first value for the key, or `""` when the key
is absent or has no values. -/
def Form.get (f : Form) (key : String) : String :=
  (f.getList key).headD ""

/-- Decimal digit test, as in the Go date parsing. -/
def isDigit (c : Char) : Bool := '0' ≤ c && c ≤ '9'

/-- Numeric value of a decimal digit character. -/
def digitVal (c : Char) : Nat := c.toNat - '0'.toNat

/-- Gregorian leap-year rule used by the Go `time` package. -/
def isLeap (year : Nat) : Bool :=
  year % 4 == 0 && (year % 100 != 0 || year % 400 == 0)

/-- Days in a month, as validated by the Go date parsing. -/
def daysIn (year month : Nat) : Nat :=
  if month = 2 then (if isLeap year then 29 else 28)
  else if month = 4 ∨ month = 6 ∨ month = 9 ∨ month = 11 then 30
  else 31

/-- the Go `time.Parse("2006-01-02", s)`: exactly ten characters
`YYYY-MM-DD`, all positions digits, month in 1..12 and day in
1..daysIn; `none` models a parse error. -/
def parseDate (s : String) : Option GoTime :=
  match s.toList with
  | [y1, y2, y3, y4, '-', m1, m2, '-', d1, d2] =>
    if isDigit y1 && isDigit y2 && isDigit y3 && isDigit y4 &&
       isDigit m1 && isDigit m2 && isDigit d1 && isDigit d2 then
      let year := ((digitVal y1 * 10 + digitVal y2) * 10 + digitVal y3) * 10 + digitVal y4
      let month := digitVal m1 * 10 + digitVal m2
      let day := digitVal d1 * 10 + digitVal d2
      if 1 ≤ month ∧ month ≤ 12 then
        if 1 ≤ day ∧ day ≤ daysIn year month then
          some ⟨year, month, day⟩
        else none
      else none
    else none
  | _ => none

/-- An HTTP response as written by these handlers: `http.Error` with a
message and status, `http.Redirect`, or a bare `WriteHeader(200)`. -/
inductive Response where
  | error (msg : String) (status : Nat)
  | redirect (url : String) (status : Nat)
  | ok
deriving DecidableEq, Repr

/-- `http.StatusBadRequest`. -/
def statusBadRequest : Nat := 400
/-- `http.StatusInternalServerError`. -/
def statusInternalServerError : Nat := 500
/-- `http.StatusTemporaryRedirect`. -/
def statusTemporaryRedirect : Nat := 307

/-- What a mutating handler did: the record (or name) it passed to the
storage gateway, if the call was reached, and the response written. -/
structure AddResult where
  stored : Option Game
  response : Response
deriving DecidableEq, Repr

/-- Outcome of `deleteHandler`: the name passed to `data.DeleteGame`, if
the call was reached, and the response written. -/
structure DeleteResult where
  deleted : Option String
  response : Response
deriving DecidableEq, Repr

/-- The POST branch of `addHandler` (`src/main.go:109-145`).
`form` is `none` when `r.ParseForm` fails, `storeOk` is whether
`data.AddGame` succeeds.  The result is `none` exactly when the Go code
panics on `r.Form["beaten_on"][0]` with no `beaten_on` key. -/
def addHandlerPost (form : Option Form) (storeOk : Bool) : Option AddResult :=
  match form with
  | none => some ⟨none, .error "Failed to parse submitted form." statusInternalServerError⟩
  | some vals =>
    let name := vals.get "name"
    let note : NullString := ⟨vals.get "note", true⟩
    match vals.getList "beaten_on" with
    | [] => none
    | b0 :: _ =>
      if b0.length > 0 then
        match parseDate b0 with
        | none => some ⟨none, .error "Failed to parse date." statusBadRequest⟩
        | some parsed =>
          let game : Game := ⟨name, note, ⟨parsed, true⟩⟩
          if storeOk then some ⟨some game, .redirect "/" statusTemporaryRedirect⟩
          else some ⟨some game, .error "Failed to add a game." statusInternalServerError⟩
      else
        let game : Game := ⟨name, note, ⟨GoTime.zero, true⟩⟩
        if storeOk then some ⟨some game, .redirect "/" statusTemporaryRedirect⟩
        else some ⟨some game, .error "Failed to add a game." statusInternalServerError⟩

/-- `quickAddHandler` (`src/main.go:148-172`).  `now` is the value of
`time.Now()` at the moment of the request. -/
def quickAddHandler (form : Option Form) (now : GoTime) (storeOk : Bool) : AddResult :=
  match form with
  | none => ⟨none, .error "Failed to parse submitted form." statusInternalServerError⟩
  | some vals =>
    let game : Game := ⟨vals.get "name", ⟨"", false⟩, ⟨now, true⟩⟩
    if storeOk then ⟨some game, .ok⟩
    else ⟨some game, .error "Failed to add a game." statusInternalServerError⟩

/-- `deleteHandler` (`src/main.go:174-193`).  `res` is the outcome of
`data.DeleteGame`: a storage error, or the number of rows affected. -/
def deleteHandler (form : Option Form) (res : Except Unit Int) : DeleteResult :=
  match form with
  | none => ⟨none, .error "Failed to parse submitted form." statusInternalServerError⟩
  | some vals =>
    let name := vals.get "name"
    match res with
    | .error _ => ⟨some name, .error "Failed to delete a game." statusInternalServerError⟩
    | .ok rowsAffected =>
      if rowsAffected = 0 then ⟨some name, .error "Can\x27t find this game." statusBadRequest⟩
      else ⟨some name, .ok⟩

/-- `giantbomb.ResourceTypeGame`. -/
def resourceTypeGame : String := "game"

/-- What `suggestGamesHandler` does up to the external call: either it
responds without contacting the provider, or it invokes
`giantbomb.Search(query, limit, page, resources)` (everything after that
point depends only on the opaque provider response). -/
inductive SuggestAction where
  | reject (msg : String) (status : Nat)
  | search (query : String) (limit page : Nat) (resources : List String)
deriving DecidableEq, Repr

/-- `suggestGamesHandler` (`src/main.go:195-220`) up to the remote call.
`qvals` is `r.URL.Query()`; the handler checks only that the `q` key is
present (`query, ok := qvals["q"]`) before calling
`giantbomb.Search(query[0], 10, 1, ...)`.  URL query parsing never maps
a present key to an empty value list, so `headD` is exact. -/
def suggestGamesHandler (qvals : Form) : SuggestAction :=
  match qvals.lookupKey "q" with
  | none => .reject "Query is empty." statusBadRequest
  | some query => .search (query.headD "") 10 1 [resourceTypeGame]

/-! ## Theorems -/

/-- C1 counterexample: a request whose `q` parameter is present with an
empty value does not get a BadRequest; the handler invokes the remote
search provider with the empty query. -/
theorem suggest_emptyValue_calls_provider :
    suggestGamesHandler [("q", [""])] = .search "" 10 1 [resourceTypeGame] ∧
    suggestGamesHandler [("q", [""])] ≠ .reject "Query is empty." statusBadRequest := by
  constructor
  · rfl
  · intro h
    cases h

/-- C1 (amended): the suggest handler responds BadRequest, without any
remote call, exactly when the `q` key is absent; whenever the key is
present — even with an empty value — the remote search provider is
invoked with the first value. -/
theorem suggest_rejects_iff_q_missing (qvals : Form) :
    (Form.lookupKey qvals "q" = none →
      suggestGamesHandler qvals = .reject "Query is empty." statusBadRequest) ∧
    (∀ vs, Form.lookupKey qvals "q" = some vs →
      suggestGamesHandler qvals = .search (vs.headD "") 10 1 [resourceTypeGame]) := by
  constructor
  · intro h
    simp only [suggestGamesHandler, h]
  · intro vs h
    simp only [suggestGamesHandler, h]

/-- Witness for the amended C1 at concrete inputs: no `q` key at all,
and a `q` key with a non-empty value. -/
theorem suggest_rejects_iff_q_missing_witness :
    suggestGamesHandler [] = .reject "Query is empty." statusBadRequest ∧
    suggestGamesHandler [("q", ["mario"])] = .search "mario" 10 1 [resourceTypeGame] :=
  ⟨(suggest_rejects_iff_q_missing []).1 rfl,
   (suggest_rejects_iff_q_missing [("q", ["mario"])]).2 ["mario"] rfl⟩

/-- C2: on every parseable quick-add form, the game passed to storage
has note marked absent and beatenOn present, equal to the server clock
at the moment of the request. -/
theorem quickAdd_note_absent_beatenOn_now (form : Form) (now : GoTime) (storeOk : Bool) :
    (quickAddHandler (some form) now storeOk).stored =
      some ⟨Form.get form "name", ⟨"", false⟩, ⟨now, true⟩⟩ := by
  cases storeOk <;> rfl

/-- C6: the delete handler maps zero affected rows to a BadRequest (400)
client error and a storage error to a server error (500); zero matches
is never surfaced as a server error. -/
theorem delete_notFound_400_storageError_500 (form : Form) :
    (deleteHandler (some form) (.ok 0)).response =
      .error "Can\x27t find this game." statusBadRequest ∧
    (deleteHandler (some form) (.error ())).response =
      .error "Failed to delete a game." statusInternalServerError ∧
    statusBadRequest ≠ statusInternalServerError := by
  refine ⟨rfl, rfl, by decide⟩

/-- C8 counterexample: a malformed (unparseable) form body on the
full-add path is answered with HTTP 500, not a BadRequest-class (400)
error. -/
theorem parseFailure_not_badRequest :
    addHandlerPost none true =
      some ⟨none, .error "Failed to parse submitted form." statusInternalServerError⟩ ∧
    statusInternalServerError ≠ statusBadRequest :=
  ⟨rfl, by decide⟩

/-- C8 (amended): on all three mutating paths a malformed form body is
answered with an InternalServerError (500) before any field extraction,
and no storage operation is invoked. -/
theorem parseFailure_500_no_storage (storeOk : Bool) (now : GoTime) (res : Except Unit Int) :
    addHandlerPost none storeOk =
      some ⟨none, .error "Failed to parse submitted form." statusInternalServerError⟩ ∧
    quickAddHandler none now storeOk =
      ⟨none, .error "Failed to parse submitted form." statusInternalServerError⟩ ∧
    deleteHandler none res =
      ⟨none, .error "Failed to parse submitted form." statusInternalServerError⟩ :=
  ⟨rfl, rfl, rfl⟩

/-- Helper: with no `beaten_on` key the full-add POST path panics. -/
theorem addHandlerPost_nil (form : Form) (storeOk : Bool)
    (hb : Form.getList form "beaten_on" = []) :
    addHandlerPost (some form) storeOk = none := by
  simp only [addHandlerPost, hb]

/-- Helper: a non-empty `beaten_on` value that fails date parsing yields
a 400 with nothing stored. -/
theorem addHandlerPost_badDate (form : Form) (storeOk : Bool) (b0 : String) (bs : List String)
    (hb : Form.getList form "beaten_on" = b0 :: bs) (hl : 0 < b0.length)
    (hp : parseDate b0 = none) :
    addHandlerPost (some form) storeOk =
      some ⟨none, .error "Failed to parse date." statusBadRequest⟩ := by
  simp only [addHandlerPost, hb, hp, if_pos hl]

/-- Helper: a non-empty `beaten_on` value that parses to `d` stores the
game with that date; the response depends on the storage outcome. -/
theorem addHandlerPost_goodDate (form : Form) (storeOk : Bool) (b0 : String) (bs : List String)
    (d : GoTime) (hb : Form.getList form "beaten_on" = b0 :: bs) (hl : 0 < b0.length)
    (hp : parseDate b0 = some d) :
    addHandlerPost (some form) storeOk =
      some ⟨some ⟨Form.get form "name", ⟨Form.get form "note", true⟩, ⟨d, true⟩⟩,
        if storeOk then Response.redirect "/" statusTemporaryRedirect
        else Response.error "Failed to add a game." statusInternalServerError⟩ := by
  cases storeOk <;> simp only [addHandlerPost, hb, hp, if_pos hl] <;> rfl

/-- Helper: an empty `beaten_on` value stores the game with a present
zero date; the response depends on the storage outcome. -/
theorem addHandlerPost_emptyDate (form : Form) (storeOk : Bool) (b0 : String) (bs : List String)
    (hb : Form.getList form "beaten_on" = b0 :: bs) (hl : ¬ 0 < b0.length) :
    addHandlerPost (some form) storeOk =
      some ⟨some ⟨Form.get form "name", ⟨Form.get form "note", true⟩, ⟨GoTime.zero, true⟩⟩,
        if storeOk then Response.redirect "/" statusTemporaryRedirect
        else Response.error "Failed to add a game." statusInternalServerError⟩ := by
  cases storeOk <;> simp only [addHandlerPost, hb, if_neg hl] <;> rfl

/-- C3: whenever the full-add POST path passes a game to storage, its
note is marked present and carries the submitted `note` field verbatim
(the empty string when the field is missing or blank). -/
theorem addHandler_note_present_verbatim (form : Form) (storeOk : Bool) (res : AddResult)
    (g : Game) (hres : addHandlerPost (some form) storeOk = some res)
    (hg : res.stored = some g) :
    g.note = ⟨Form.get form "note", true⟩ := by
  rcases hb : Form.getList form "beaten_on" with _ | ⟨b0, bs⟩
  · rw [addHandlerPost_nil form storeOk hb] at hres
    exact Option.noConfusion hres
  · by_cases hl : 0 < b0.length
    · rcases hp : parseDate b0 with _ | d
      · rw [addHandlerPost_badDate form storeOk b0 bs hb hl hp] at hres
        obtain rfl := Option.some.inj hres
        exact Option.noConfusion hg
      · rw [addHandlerPost_goodDate form storeOk b0 bs d hb hl hp] at hres
        obtain rfl := Option.some.inj hres
        obtain rfl := Option.some.inj hg
        rfl
    · rw [addHandlerPost_emptyDate form storeOk b0 bs hb hl] at hres
      obtain rfl := Option.some.inj hres
      obtain rfl := Option.some.inj hg
      rfl

/-- Witness for C3: full-add of `name=Hades, beaten_on=2020-12-10` with
no `note` field stores a present-and-empty note. -/
theorem addHandler_note_present_verbatim_witness :
    (⟨"Hades", ⟨"", true⟩, ⟨⟨2020, 12, 10⟩, true⟩⟩ : Game).note =
      ⟨Form.get [("name", ["Hades"]), ("beaten_on", ["2020-12-10"])] "note", true⟩ :=
  addHandler_note_present_verbatim [("name", ["Hades"]), ("beaten_on", ["2020-12-10"])] true
    ⟨some ⟨"Hades", ⟨"", true⟩, ⟨⟨2020, 12, 10⟩, true⟩⟩,
      .redirect "/" statusTemporaryRedirect⟩
    ⟨"Hades", ⟨"", true⟩, ⟨⟨2020, 12, 10⟩, true⟩⟩ rfl rfl

/-- C4: a non-empty submitted `beaten_on` is parsed as a YYYY-MM-DD
date; on failure the handler answers 400 and nothing reaches storage; on
success the stored beatenOn is present with exactly that date. -/
theorem addHandler_date_parse_or_400 (form : Form) (storeOk : Bool) (b0 : String)
    (bs : List String) (hb : Form.getList form "beaten_on" = b0 :: bs)
    (hl : 0 < b0.length) :
    (parseDate b0 = none →
      addHandlerPost (some form) storeOk =
        some ⟨none, .error "Failed to parse date." statusBadRequest⟩) ∧
    (∀ d, parseDate b0 = some d →
      ∃ res g, addHandlerPost (some form) storeOk = some res ∧
        res.stored = some g ∧ g.beatenOn = ⟨d, true⟩) := by
  constructor
  · intro hp
    exact addHandlerPost_badDate form storeOk b0 bs hb hl hp
  · intro d hp
    exact ⟨_, _, addHandlerPost_goodDate form storeOk b0 bs d hb hl hp, rfl, rfl⟩

/-- Witness for C4: `beaten_on=not-a-date` is answered 400 with nothing
stored; `beaten_on=2020-12-10` stores that exact date. -/
theorem addHandler_date_parse_or_400_witness :
    (addHandlerPost (some [("beaten_on", ["not-a-date"])]) true =
      some ⟨none, .error "Failed to parse date." statusBadRequest⟩) ∧
    (∃ res g, addHandlerPost (some [("beaten_on", ["2020-12-10"])]) true = some res ∧
      res.stored = some g ∧ g.beatenOn = ⟨⟨2020, 12, 10⟩, true⟩) :=
  ⟨(addHandler_date_parse_or_400 [("beaten_on", ["not-a-date"])] true "not-a-date" []
      rfl (by decide)).1 rfl,
   (addHandler_date_parse_or_400 [("beaten_on", ["2020-12-10"])] true "2020-12-10" []
      rfl (by decide)).2 ⟨2020, 12, 10⟩ rfl⟩

/-- C5: an empty submitted `beaten_on` field is stored as
present-with-zero-date (presence flag true, zero time), not absent. -/
theorem addHandler_emptyDate_present_zero (form : Form) (storeOk : Bool) (bs : List String)
    (hb : Form.getList form "beaten_on" = "" :: bs) :
    ∃ res g, addHandlerPost (some form) storeOk = some res ∧
      res.stored = some g ∧ g.beatenOn = ⟨GoTime.zero, true⟩ :=
  ⟨_, _, addHandlerPost_emptyDate form storeOk "" bs hb (by decide), rfl, rfl⟩

/-- Witness for C5 at a concrete form with an empty `beaten_on`. -/
theorem addHandler_emptyDate_present_zero_witness :
    ∃ res g, addHandlerPost (some [("name", ["Hades"]), ("beaten_on", [""])]) true = some res ∧
      res.stored = some g ∧ g.beatenOn = ⟨GoTime.zero, true⟩ :=
  addHandler_emptyDate_present_zero [("name", ["Hades"]), ("beaten_on", [""])] true [] rfl

/-- C7 counterexample: a full-add submission with no `name` field (so an
empty name) is not rejected — a record with an empty name is passed to
storage and the request succeeds with a redirect. -/
theorem addHandler_accepts_empty_name :
    addHandlerPost (some [("beaten_on", [""])]) true =
      some ⟨some ⟨"", ⟨"", true⟩, ⟨GoTime.zero, true⟩⟩,
        .redirect "/" statusTemporaryRedirect⟩ := rfl

/-- C7 (amended): neither add path validates the name: the record passed
to storage carries the submitted name verbatim, including the empty
string when the name field is missing or empty. -/
theorem handlers_store_name_verbatim (form : Form) (now : GoTime) (storeOk : Bool) :
    ((quickAddHandler (some form) now storeOk).stored.map Game.name =
      some (Form.get form "name")) ∧
    (∀ res g, addHandlerPost (some form) storeOk = some res → res.stored = some g →
      g.name = Form.get form "name") := by
  constructor
  · cases storeOk <;> rfl
  · intro res g hres hg
    rcases hb : Form.getList form "beaten_on" with _ | ⟨b0, bs⟩
    · rw [addHandlerPost_nil form storeOk hb] at hres
      exact Option.noConfusion hres
    · by_cases hl : 0 < b0.length
      · rcases hp : parseDate b0 with _ | d
        · rw [addHandlerPost_badDate form storeOk b0 bs hb hl hp] at hres
          obtain rfl := Option.some.inj hres
          exact Option.noConfusion hg
        · rw [addHandlerPost_goodDate form storeOk b0 bs d hb hl hp] at hres
          obtain rfl := Option.some.inj hres
          obtain rfl := Option.some.inj hg
          rfl
      · rw [addHandlerPost_emptyDate form storeOk b0 bs hb hl] at hres
        obtain rfl := Option.some.inj hres
        obtain rfl := Option.some.inj hg
        rfl

/-- Witness for the amended C7 at concrete inputs with no name field on
either path. -/
theorem handlers_store_name_verbatim_witness :
    ((quickAddHandler (some []) ⟨2026, 10, 11⟩ true).stored.map Game.name = some "") ∧
    (⟨"", ⟨"", true⟩, ⟨GoTime.zero, true⟩⟩ : Game).name =
      Form.get [("beaten_on", [""])] "name" :=
  ⟨(handlers_store_name_verbatim [] ⟨2026, 10, 11⟩ true).1,
   (handlers_store_name_verbatim [("beaten_on", [""])] ⟨2026, 10, 11⟩ true).2
     ⟨some ⟨"", ⟨"", true⟩, ⟨GoTime.zero, true⟩⟩, .redirect "/" statusTemporaryRedirect⟩
     ⟨"", ⟨"", true⟩, ⟨GoTime.zero, true⟩⟩ rfl rfl⟩

/-- C9: on a parseable form with no `beaten_on` key at all, the full-add
POST path panics (no HTTP response at all); whenever a `beaten_on` field
was submitted, even empty, evaluation is total. -/
theorem addHandler_panics_iff_no_beatenOn (form : Form) (storeOk : Bool) :
    (Form.getList form "beaten_on" = [] →
      addHandlerPost (some form) storeOk = none) ∧
    (∀ b0 bs, Form.getList form "beaten_on" = b0 :: bs →
      (addHandlerPost (some form) storeOk).isSome = true) := by
  constructor
  · exact addHandlerPost_nil form storeOk
  · intro b0 bs hb
    by_cases hl : 0 < b0.length
    · rcases hp : parseDate b0 with _ | d
      · rw [addHandlerPost_badDate form storeOk b0 bs hb hl hp]
        rfl
      · rw [addHandlerPost_goodDate form storeOk b0 bs d hb hl hp]
        rfl
    · rw [addHandlerPost_emptyDate form storeOk b0 bs hb hl]
      rfl

/-- Witness for C9: a form with only a name panics; a form with an empty
`beaten_on` field completes. -/
theorem addHandler_panics_iff_no_beatenOn_witness :
    addHandlerPost (some [("name", ["Celeste"])]) true = none ∧
    (addHandlerPost (some [("beaten_on", [""])]) true).isSome = true :=
  ⟨(addHandler_panics_iff_no_beatenOn [("name", ["Celeste"])] true).1 rfl,
   (addHandler_panics_iff_no_beatenOn [("beaten_on", [""])] true).2 "" [] rfl⟩

/-- C10: a full-add POST that parses and whose storage insert succeeds
is answered with a redirect to `/` carrying the temporary-redirect
status (307). -/
theorem addHandler_success_redirects (form : Form) (res : AddResult)
    (hres : addHandlerPost (some form) true = some res)
    (hstored : res.stored.isSome = true) :
    res.response = .redirect "/" statusTemporaryRedirect := by
  rcases hb : Form.getList form "beaten_on" with _ | ⟨b0, bs⟩
  · rw [addHandlerPost_nil form true hb] at hres
    exact Option.noConfusion hres
  · by_cases hl : 0 < b0.length
    · rcases hp : parseDate b0 with _ | d
      · rw [addHandlerPost_badDate form true b0 bs hb hl hp] at hres
        obtain rfl := Option.some.inj hres
        exact Bool.noConfusion hstored
      · rw [addHandlerPost_goodDate form true b0 bs d hb hl hp] at hres
        obtain rfl := Option.some.inj hres
        rfl
    · rw [addHandlerPost_emptyDate form true b0 bs hb hl] at hres
      obtain rfl := Option.some.inj hres
      rfl

/-- Witness for C10 at the successful full-add of
`name=Hades, beaten_on=2020-12-10`. -/
theorem addHandler_success_redirects_witness :
    (⟨some ⟨"Hades", ⟨"", true⟩, ⟨⟨2020, 12, 10⟩, true⟩⟩,
      .redirect "/" statusTemporaryRedirect⟩ : AddResult).response =
      .redirect "/" statusTemporaryRedirect :=
  addHandler_success_redirects [("name", ["Hades"]), ("beaten_on", ["2020-12-10"])]
    ⟨some ⟨"Hades", ⟨"", true⟩, ⟨⟨2020, 12, 10⟩, true⟩⟩,
      .redirect "/" statusTemporaryRedirect⟩ rfl rfl
